import Mathlib

/-!
Verification development for an OCPP 2.0.1 EV charger simulator.

The definitions below are a shallow embedding of the simulator's session
and protocol engine (the multi-EVSE variant of the source). JavaScript
numbers are modelled by exact rationals (all arithmetic the engine performs
on state is addition, subtraction, multiplication, division, `min`/`max`
and comparisons on decimal literals, which ℚ reproduces exactly).
Log lines and the textual payloads of outbound OCPP messages are not part
of any verified property and are abstracted: an outbound message is
recorded by its kind and action only. Timer scheduling is made explicit:
each delayed callback of the source is a separate transition.
-/

namespace EvSim

/-- The nine EVSE status values of the `EVSE_STATUS` table. -/
inductive Status where
  | Available
  | Preparing
  | Charging
  | SuspendedEVSE
  | SuspendedEV
  | Finishing
  | Reserved
  | Unavailable
  | Faulted
deriving DecidableEq

/-- A fault record `{ errorCode, info, timestamp }`; the wall-clock
timestamp string is irrelevant to every property and omitted. -/
structure Fault where
  errorCode : String
  info : String
deriving DecidableEq

/-- The session object created by `doStartSession`:
`{ startTime, energy, soc, transactionId, idTag, totalSeconds, socEnd }`. -/
structure Session where
  startTime : Nat
  energy : ℚ
  soc : ℚ
  transactionId : String
  idTag : String
  totalSeconds : ℚ
  socEnd : ℚ
deriving DecidableEq

/-- One EVSE record as built by `createEvse`. -/
structure Evse where
  id : Nat
  connectorType : String
  status : Status
  session : Option Session
  temperature : ℚ
  fault : Option Fault
  power : ℚ
deriving DecidableEq

/-- The station configuration fields that the engine (as opposed to the
form UI) reads: electrical limits and the charge-simulation parameters. -/
structure Config where
  maxPower : ℚ
  batteryCapacity : ℚ
  socStart : ℚ
  socEnd : ℚ
  chargeDurationMin : ℚ
  chargeMode : String
deriving DecidableEq

/-- `createEvse(id, connectorType)`: initial EVSE state. -/
def createEvse (id : Nat) (connectorType : String) : Evse :=
  { id := id
    connectorType := connectorType
    status := Status.Available
    session := none
    temperature := 28
    fault := none
    power := 0 }

/-- `chargeCurve(soc)`: non-linear DC charge-curve power multiplier. -/
def chargeCurve (soc : ℚ) : ℚ :=
  if soc < 20 then 0.75 + soc / 20 * 0.25
  else if soc < 80 then 1.0
  else if soc < 90 then 1.0 - (soc - 80) / 10 * 0.55
  else if soc < 95 then 0.45 - (soc - 90) / 5 * 0.25
  else 0.20 - (soc - 95) / 5 * 0.15

/-- `updateTemp(currentTemp, powerKw, maxPower, ambientTemp = 25)`:
heating proportional to load, cooling proportional to the gap above
ambient, clamped to `[ambientTemp, 85]`. -/
def updateTemp (currentTemp powerKw maxPower ambientTemp : ℚ) : ℚ :=
  max ambientTemp (min 85 (currentTemp + powerKw / maxPower * 0.08
    - (currentTemp - ambientTemp) * 0.012))

/-- `tempDerating(temp)`: thermal power-derating multiplier. -/
def tempDerating (temp : ℚ) : ℚ :=
  if temp < 60 then 1.0
  else if temp < 75 then 1.0 - (temp - 60) / 15 * 0.4
  else 0.6 - (temp - 75) / 10 * 0.4

/-- The fixed per-session parameters computed by `doStartSession` from a
configuration snapshot and captured by the metering closure:
`socRange`, `totalEnergy` and `totalSeconds`. -/
structure SessionParams where
  socRange : ℚ
  totalEnergy : ℚ
  totalSeconds : ℚ
deriving DecidableEq

/-- The session-parameter snapshot taken at start time:
`socRange = socEnd - socStart`, `totalEnergy = socRange/100 * batteryCapacity`,
`totalSeconds = chargeDurationMin * 60`. -/
def sessionParams (cfg : Config) : SessionParams :=
  { socRange := cfg.socEnd - cfg.socStart
    totalEnergy := (cfg.socEnd - cfg.socStart) / 100 * cfg.batteryCapacity
    totalSeconds := cfg.chargeDurationMin * 60 }

/-- The session object literal built in `doStartSession`
(`startTime: Date.now(), energy: 0, soc: cfg.socStart, …`); the random
transaction id and wall-clock start time are explicit inputs. -/
def mkSession (cfg : Config) (txId idTag : String) (startTime : Nat) : Session :=
  { startTime := startTime
    energy := 0
    soc := cfg.socStart
    transactionId := txId
    idTag := idTag
    totalSeconds := cfg.chargeDurationMin * 60
    socEnd := cfg.socEnd }

/-- `updateEvse(id, patch)`: apply an update to the EVSE with the given id. -/
def updateEvse (evses : List Evse) (evseId : Nat) (f : Evse → Evse) : List Evse :=
  evses.map fun e => if e.id = evseId then f e else e

/-- The skip guard at the top of the metering callback:
`if (!evse?.session || evse.status === Faulted) return prev`. -/
def tickSkip (e : Evse) : Bool :=
  e.session.isNone || e.status == Status.Faulted

/-- One metering tick on a single EVSE (the `setInterval` body installed by
`doStartSession`). `sp` holds the closure-captured session parameters;
`cfg` is the live configuration read through `configRef`. The conditional
`MeterValues` emission and the completion scheduling do not change the
returned EVSE and are modelled separately. -/
def meterTick (cfg : Config) (sp : SessionParams) (e : Evse) : Evse :=
  match e.session with
  | none => e
  | some ses =>
    if e.status = Status.Faulted then e
    else
      let curveMult := if cfg.chargeMode = "nonlinear" then chargeCurve ses.soc else 1.0
      let tempMult := tempDerating e.temperature
      let effectivePower := cfg.maxPower * curveMult * tempMult
      let energyPerSecBase := sp.totalEnergy / sp.totalSeconds
      let energyInc := energyPerSecBase * curveMult * tempMult
      let socInc := sp.socRange / sp.totalSeconds * curveMult * tempMult
      let newSoc := min (ses.soc + socInc) cfg.socEnd
      let newEnergy := ses.energy + energyInc
      let newTemp := updateTemp e.temperature effectivePower cfg.maxPower 25
      { e with
        session := some { ses with energy := newEnergy, soc := newSoc }
        power := effectivePower
        temperature := newTemp }

/-- An outbound wire message, abstracted to its kind: a CALLRESULT reply
(`replyOCPP(msgId, {status})`), a CALLERROR reply, or a station-initiated
CALL (`sendOCPP(action, …)`, payload abstracted). -/
inductive OutMsg where
  | callResult (msgId status : String)
  | callError (msgId code description : String)
  | txCall (action : String)
deriving DecidableEq

/-- `replyOCPP(msgId, payload)`: sends a CALLRESULT only while the
WebSocket is open. -/
def replyOCPP (wsOpen : Bool) (msgId status : String) : List OutMsg :=
  if wsOpen then [OutMsg.callResult msgId status] else []

/-- The immediate (synchronous) part of `doStartSession(evseId, idTag)`:
reject as a no-op unless the EVSE exists and is exactly `Available`;
otherwise create the session, set `Preparing`, and send `Authorize`.
The ramp-up timeout and the metering interval it installs are modelled
as separate transitions. -/
def doStartSession (cfg : Config) (evses : List Evse) (evseId : Nat)
    (idTag txId : String) (startTime : Nat) : List Evse × List OutMsg :=
  match evses.find? (fun e => e.id == evseId) with
  | none => (evses, [])
  | some e =>
    if e.status ≠ Status.Available then (evses, [])
    else
      let ses := mkSession cfg txId idTag startTime
      (updateEvse evses evseId
        (fun x => { x with status := Status.Preparing, session := some ses, power := 0 }),
       [OutMsg.txCall ("Authorize")])

/-- The immediate (synchronous) part of `doStopSession(evseId, reason)`:
no-op returning `false` when the EVSE has no session; otherwise emit the
final `TransactionEvent(Ended)`, set `Finishing` with `power = 0`, and
return `true`. The interval cancellation has no state effect here and the
2-second settle timeout is a separate transition. -/
def doStopSession (evses : List Evse) (evseId : Nat) (_reason : String) :
    List Evse × List OutMsg × Bool :=
  match evses.find? (fun e => e.id == evseId) with
  | none => (evses, [], false)
  | some e =>
    match e.session with
    | none => (evses, [], false)
    | some _ =>
      (updateEvse evses evseId
        (fun x => { x with status := Status.Finishing, power := 0 }),
       [OutMsg.txCall ("TransactionEvent")], true)

/-- The per-EVSE effect of `injectFault`: `Faulted`, fault set, session
cleared, power zero. -/
def injectFaultEvse (f : Fault) (e : Evse) : Evse :=
  { e with status := Status.Faulted, fault := some f, session := none, power := 0 }

/-- `injectFault(evseId, errorCode, info)`: emit the abnormal-termination
report when a session was active, then the `StatusNotification` and
`NotifyEvent`, and set the EVSE to `Faulted` with the session cleared. -/
def injectFault (evses : List Evse) (evseId : Nat) (errorCode info : String) :
    List Evse × List OutMsg :=
  let fault : Fault := { errorCode := errorCode, info := info }
  let hadSession :=
    match evses.find? (fun e => e.id == evseId) with
    | some e => e.session.isSome
    | none => false
  (updateEvse evses evseId (injectFaultEvse fault),
   (if hadSession then [OutMsg.txCall ("TransactionEvent")] else [])
     ++ [OutMsg.txCall ("StatusNotification"), OutMsg.txCall ("NotifyEvent")])

/-- The per-EVSE effect of `clearFault`: unconditionally `Available`,
fault cleared, power zero — the session field is not part of the patch. -/
def clearFaultEvse (e : Evse) : Evse :=
  { e with status := Status.Available, fault := none, power := 0 }

/-- `clearFault(evseId)`: apply the clear patch and announce `Available`. -/
def clearFault (evses : List Evse) (evseId : Nat) : List Evse × List OutMsg :=
  (updateEvse evses evseId clearFaultEvse, [OutMsg.txCall ("StatusNotification")])

/-- The fields of a duck-typed inbound CALL payload that the dispatcher
reads (`payload?.evseId`, `payload?.idToken?.idToken`,
`payload?.transactionId`, `payload?.operationalStatus`,
`payload?.requestedMessage`, `payload?.evse?.id`); an absent field is
`none`, matching JavaScript `undefined`. -/
structure Payload where
  evseId : Option Nat
  idToken : Option String
  transactionId : Option String
  operationalStatus : Option String
  requestedMessage : Option String
  evseInner : Option Nat
deriving DecidableEq

/-- The CALL branch of `handleCsmsMessage` (the `switch (action)` block):
dispatch one inbound CALL against the EVSE list. `wsOpen` is the
`wsRef.current?.readyState === OPEN` test guarding every outgoing frame;
`txId`/`startTime` stand for the random id and clock read a session start
would perform. -/
def handleCall (wsOpen : Bool) (cfg : Config) (evses : List Evse)
    (txId : String) (startTime : Nat) (msgId action : String) (p : Payload) :
    List Evse × List OutMsg :=
  if action = "RequestStartTransaction" then
    let evseId := p.evseId.getD 1
    match evses.find? (fun e => e.id == evseId) with
    | none => (evses, replyOCPP wsOpen msgId ("Rejected"))
    | some e =>
      if e.status ≠ Status.Available then (evses, replyOCPP wsOpen msgId ("Rejected"))
      else
        let r := doStartSession cfg evses evseId (p.idToken.getD ("REMOTE")) txId startTime
        (r.1, replyOCPP wsOpen msgId ("Accepted") ++ r.2)
  else if action = "RequestStopTransaction" then
    match evses.find? (fun e => e.session.map Session.transactionId == p.transactionId) with
    | none => (evses, replyOCPP wsOpen msgId ("Rejected"))
    | some e =>
      let r := doStopSession evses e.id ("Remote")
      (r.1, replyOCPP wsOpen msgId ("Accepted") ++ r.2.1)
  else if action = "Reset" then
    let r := evses.foldl
      (fun acc e =>
        if e.session.isSome then
          let s := doStopSession acc.1 e.id ("Remote")
          (s.1, acc.2 ++ s.2.1)
        else acc)
      (evses, [])
    (r.1, replyOCPP wsOpen msgId ("Accepted") ++ r.2)
  else if action = "ChangeAvailability" then
    let evseId := p.evseId.getD 1
    let newStatus :=
      if p.operationalStatus == some ("Inoperative") then Status.Unavailable
      else Status.Available
    (updateEvse evses evseId (fun e => { e with status := newStatus }),
     replyOCPP wsOpen msgId ("Accepted") ++ [OutMsg.txCall ("StatusNotification")])
  else if action = "TriggerMessage" then
    (evses,
     replyOCPP wsOpen msgId ("Accepted")
       ++ (if p.requestedMessage == some ("Heartbeat") then [OutMsg.txCall ("Heartbeat")] else [])
       ++ (if p.requestedMessage == some ("StatusNotification")
           then [OutMsg.txCall ("StatusNotification")] else []))
  else
    (evses,
     if wsOpen then [OutMsg.callError msgId ("NotImplemented") (action ++ " not supported")]
     else [])

/-- One element of a decoded top-level JSON array; `undef` stands for
JavaScript `undefined` (a missing element), and an element that is itself
an array or object appears as the uninterpreted `subarr`/`obj` marker, since the
envelope handler never looks inside elements beyond strict comparison
with the numbers 2/3/4. -/
inductive JAtom where
  | str (s : String)
  | num (n : Int)
  | obj
  | subarr
  | jbool (b : Bool)
  | jnull
  | undef
deriving DecidableEq

/-- A decoded top-level JSON value, as produced by `JSON.parse`. -/
inductive JValue where
  | arr (elems : List JAtom)
  | str (s : String)
  | num (n : Int)
  | obj
  | jbool (b : Bool)
  | jnull
deriving DecidableEq

/-- JavaScript array destructuring `const [type, msgId, ...rest] = parsed`:
arrays destructure element-wise, strings character-wise, and every other
value is not iterable, so the statement throws a `TypeError`. -/
def destructure (v : JValue) : Option (List JAtom) :=
  match v with
  | JValue.arr l => some l
  | JValue.str s => some (s.toList.map fun c => JAtom.str (String.singleton c))
  | _ => none

/-- The observable outcome of the envelope part of `handleCsmsMessage`
(lines before the `switch`): `crashed` is an uncaught `TypeError` escaping
the handler, `loggedInvalid` the `JSON.parse` catch branch, `ignored` a
frame whose first element is none of 2/3/4. -/
inductive FrameResult where
  | crashed
  | loggedInvalid
  | handledResult
  | handledError
  | dispatched (msgId : JAtom) (rest : List JAtom)
  | ignored
deriving DecidableEq

/-- The envelope stage of `handleCsmsMessage(data)`: `parsed = none` is a
`JSON.parse` failure (caught: log and return). Otherwise the destructuring
`const [type, msgId, ...rest] = parsed` runs outside the try/catch, so a
non-iterable parse result throws. A well-formed array is routed on its
`messageTypeId`; CALL frames are handed to the `switch` with the
correlation id and remaining elements. -/
def handleFrame (parsed : Option JValue) : FrameResult :=
  match parsed with
  | none => FrameResult.loggedInvalid
  | some v =>
    match destructure v with
    | none => FrameResult.crashed
    | some l =>
      let type := (l.get? 0).getD JAtom.undef
      let msgId := (l.get? 1).getD JAtom.undef
      let rest := l.drop 2
      if type = JAtom.num 3 then FrameResult.handledResult
      else if type = JAtom.num 4 then FrameResult.handledError
      else if type = JAtom.num 2 then FrameResult.dispatched msgId rest
      else FrameResult.ignored

/-- Every mutation the engine can apply to a single EVSE record, one
constructor per mutation site. Delayed callbacks are separate transitions:
the source never re-checks state inside `setTimeout` bodies except where a
constructor carries the corresponding guard, so the settle/reset callbacks
fire unconditionally once scheduled, and the values a callback captured
(`updatedSession` in the target-reached path) are quantified. -/
inductive Step (cfg : Config) : Evse → Evse → Prop where
  /-- `doStartSession`, immediate part: guard `status === Available`. -/
  | start (e : Evse) (txId idTag : String) (t : Nat)
      (h : e.status = Status.Available) :
      Step cfg e { e with status := Status.Preparing
                          session := some (mkSession cfg txId idTag t)
                          power := 0 }
  /-- The 1.5 s ramp-up timeout: re-checks `currentEvse?.session`, then
  sets `Charging`. -/
  | rampUp (e : Evse) (h : e.session.isSome) :
      Step cfg e { e with status := Status.Charging }
  /-- One metering tick (guards are inside `meterTick`); the captured
  session parameters are arbitrary. -/
  | tick (e : Evse) (sp : SessionParams) :
      Step cfg e (meterTick cfg sp e)
  /-- The 0.5 s target-reached callback: `Finishing` with the captured
  updated session and `power = 0`, unguarded. -/
  | targetFinish (e : Evse) (s : Session) :
      Step cfg e { e with status := Status.Finishing, session := some s, power := 0 }
  /-- `doStopSession`, immediate part: guard `evse?.session`. -/
  | stopNow (e : Evse) (h : e.session.isSome) :
      Step cfg e { e with status := Status.Finishing, power := 0 }
  /-- The 2 s settle callback of both `doStopSession` and the
  target-reached path: back to `Available` with the session cleared,
  unguarded. -/
  | settle (e : Evse) :
      Step cfg e { e with status := Status.Available, session := none, power := 0 }
  /-- `injectFault`. -/
  | inject (e : Evse) (f : Fault) :
      Step cfg e (injectFaultEvse f e)
  /-- `clearFault`. -/
  | clear (e : Evse) :
      Step cfg e (clearFaultEvse e)
  /-- The delayed `Reset` callback: `Available`, session and fault cleared. -/
  | resetAll (e : Evse) :
      Step cfg e { e with status := Status.Available, session := none
                          power := 0, fault := none }
  /-- `ChangeAvailability`: status forced to `Unavailable` or `Available`,
  nothing else touched. -/
  | changeAvail (e : Evse) (st : Status)
      (h : st = Status.Unavailable ∨ st = Status.Available) :
      Step cfg e { e with status := st }
  /-- The ambient 1 s temperature tick running for every EVSE. -/
  | tempAmbient (e : Evse) :
      Step cfg e { e with temperature := updateTemp e.temperature e.power cfg.maxPower 25 }
  /-- `disconnect`: all EVSEs forced `Unavailable` with sessions cleared. -/
  | disconnectStep (e : Evse) :
      Step cfg e { e with status := Status.Unavailable, session := none, power := 0 }
  /-- `connect`: all EVSEs forced `Available`. -/
  | connectStep (e : Evse) :
      Step cfg e { e with status := Status.Available }

/-- The EVSE states reachable from `createEvse` under any interleaving of
operations and timer callbacks. -/
def Reachable (cfg : Config) (id : Nat) (connectorType : String) (e : Evse) : Prop :=
  Relation.ReflTransGen (Step cfg) (createEvse id connectorType) e

/-- The invariant exactly as the specification states it:
`status == Charging` or `Preparing` ⇔ `session != null`;
`status == Faulted` ⇔ `fault != null`; at most one of session and fault
non-null. -/
def claimInv (e : Evse) : Prop :=
  ((e.status = Status.Charging ∨ e.status = Status.Preparing) ↔ e.session ≠ none) ∧
  (e.status = Status.Faulted ↔ e.fault ≠ none) ∧
  ¬(e.session ≠ none ∧ e.fault ≠ none)

instance (e : Evse) : Decidable (claimInv e) := by
  unfold claimInv; infer_instance

/-- The part of the stated invariant that the code actually maintains:
the forward implications. -/
def invAmended (e : Evse) : Prop :=
  ((e.status = Status.Charging ∨ e.status = Status.Preparing) → e.session ≠ none) ∧
  (e.status = Status.Faulted → e.fault ≠ none)

/-- The `curveMult` ternary of the metering tick. -/
def curveMultOf (cfg : Config) (soc : ℚ) : ℚ :=
  if cfg.chargeMode = "nonlinear" then chargeCurve soc else 1.0

/-! Concrete instances: the source's default configuration and a few
states it gives rise to, used to evaluate the engine at specific inputs. -/

/-- The default station configuration of the source
(`maxPower: 50, batteryCapacity: 60, socStart: 20, socEnd: 100,
chargeDurationMin: 5, chargeMode: "nonlinear"`). -/
def cexCfg : Config :=
  { maxPower := 50
    batteryCapacity := 60
    socStart := 20
    socEnd := 100
    chargeDurationMin := 5
    chargeMode := "nonlinear" }

/-- EVSE 1 right after `doStartSession` accepted a start. -/
def cexPreparing : Evse :=
  { createEvse 1 ("CCS2") with
    status := Status.Preparing
    session := some (mkSession cexCfg ("TX1") ("USER001") 0)
    power := 0 }

/-- EVSE 1 right after `doStopSession`: `Finishing`, session retained. -/
def cexFinishing : Evse :=
  { cexPreparing with status := Status.Finishing, power := 0 }

/-- EVSE 1 after the ramp-up timeout: `Charging` with the fresh session. -/
def cexCharging : Evse :=
  { cexPreparing with status := Status.Charging }

/-- A session close to completion under the default configuration:
SOC 99 %, 47.999 kWh delivered of the 48 kWh target. -/
def lateSession : Session :=
  { startTime := 0
    energy := 47.999
    soc := 99
    transactionId := "TX1"
    idTag := "USER001"
    totalSeconds := 300
    socEnd := 100 }

/-- EVSE 1 charging with `lateSession` active. -/
def lateEvse : Evse :=
  { id := 1
    connectorType := "CCS2"
    status := Status.Charging
    session := some lateSession
    temperature := 28
    fault := none
    power := 40 }

/-- An inbound payload with every optional field absent. -/
def noPayload : Payload :=
  { evseId := none
    idToken := none
    transactionId := none
    operationalStatus := none
    requestedMessage := none
    evseInner := none }

/-- A `RequestStopTransaction` payload naming an unknown transaction. -/
def stopPayload : Payload :=
  { noPayload with transactionId := some ("TX2") }

/-- A `ChangeAvailability(Inoperative)` payload for EVSE 1. -/
def inopPayload : Payload :=
  { noPayload with evseId := some 1, operationalStatus := some ("Inoperative") }

section CurveLemmas

lemma chargeCurve_of_lt20 {soc : ℚ} (h : soc < 20) :
    chargeCurve soc = 0.75 + soc / 20 * 0.25 := by
  unfold chargeCurve; rw [if_pos h]

lemma chargeCurve_of_ge20_lt80 {soc : ℚ} (h1 : 20 ≤ soc) (h2 : soc < 80) :
    chargeCurve soc = 1 := by
  unfold chargeCurve; rw [if_neg (not_lt.mpr h1), if_pos h2]; norm_num

lemma chargeCurve_of_ge80_lt90 {soc : ℚ} (h1 : 80 ≤ soc) (h2 : soc < 90) :
    chargeCurve soc = 1 - (soc - 80) / 10 * 0.55 := by
  unfold chargeCurve
  rw [if_neg (by linarith), if_neg (not_lt.mpr h1), if_pos h2]
  norm_num

lemma chargeCurve_of_ge90_lt95 {soc : ℚ} (h1 : 90 ≤ soc) (h2 : soc < 95) :
    chargeCurve soc = 0.45 - (soc - 90) / 5 * 0.25 := by
  unfold chargeCurve
  rw [if_neg (by linarith), if_neg (by linarith), if_neg (not_lt.mpr h1), if_pos h2]

lemma chargeCurve_of_ge95 {soc : ℚ} (h1 : 95 ≤ soc) :
    chargeCurve soc = 0.2 - (soc - 95) / 5 * 0.15 := by
  unfold chargeCurve
  rw [if_neg (by linarith), if_neg (by linarith), if_neg (by linarith),
      if_neg (not_lt.mpr h1)]
  norm_num

/-- On the physical SOC range the curve multiplier stays within
`[1/20, 1]`. -/
lemma chargeCurve_bounds {soc : ℚ} (h0 : 0 ≤ soc) (h1 : soc ≤ 100) :
    1/20 ≤ chargeCurve soc ∧ chargeCurve soc ≤ 1 := by
  rcases lt_or_le soc 20 with h | h
  · rw [chargeCurve_of_lt20 h]; constructor <;> linarith
  rcases lt_or_le soc 80 with h2 | h2
  · rw [chargeCurve_of_ge20_lt80 h h2]; norm_num
  rcases lt_or_le soc 90 with h3 | h3
  · rw [chargeCurve_of_ge80_lt90 h2 h3]; constructor <;> linarith
  rcases lt_or_le soc 95 with h4 | h4
  · rw [chargeCurve_of_ge90_lt95 h3 h4]; constructor <;> linarith
  · rw [chargeCurve_of_ge95 h4]; constructor <;> linarith

lemma tempDerating_of_lt60 {t : ℚ} (h : t < 60) : tempDerating t = 1 := by
  unfold tempDerating; rw [if_pos h]; norm_num

lemma tempDerating_of_ge60_lt75 {t : ℚ} (h1 : 60 ≤ t) (h2 : t < 75) :
    tempDerating t = 1 - (t - 60) / 15 * 0.4 := by
  unfold tempDerating; rw [if_neg (not_lt.mpr h1), if_pos h2]; norm_num

lemma tempDerating_of_ge75 {t : ℚ} (h1 : 75 ≤ t) :
    tempDerating t = 0.6 - (t - 75) / 10 * 0.4 := by
  unfold tempDerating; rw [if_neg (by linarith), if_neg (not_lt.mpr h1)]

/-- Up to the 85 °C cap that `updateTemp` enforces, the derating
multiplier stays within `[0.2, 1]`. -/
lemma tempDerating_bounds {t : ℚ} (h : t ≤ 85) :
    0.2 ≤ tempDerating t ∧ tempDerating t ≤ 1 := by
  rcases lt_or_le t 60 with h1 | h1
  · rw [tempDerating_of_lt60 h1]; norm_num
  rcases lt_or_le t 75 with h2 | h2
  · rw [tempDerating_of_ge60_lt75 h1 h2]; constructor <;> linarith
  · rw [tempDerating_of_ge75 h2]; constructor <;> linarith

/-- The combined tick multiplier is positive on the physical state space
(either charge mode). -/
lemma curveMultOf_pos {cfg : Config} {soc : ℚ} (h0 : 0 ≤ soc) (h1 : soc ≤ 100) :
    0 < curveMultOf cfg soc := by
  unfold curveMultOf
  split
  · linarith [(chargeCurve_bounds h0 h1).1]
  · norm_num

end CurveLemmas

section TickLemmas

lemma meterTick_status (cfg : Config) (sp : SessionParams) (e : Evse) :
    (meterTick cfg sp e).status = e.status := by
  unfold meterTick
  cases e.session
  · rfl
  · dsimp only; split <;> rfl

lemma meterTick_fault (cfg : Config) (sp : SessionParams) (e : Evse) :
    (meterTick cfg sp e).fault = e.fault := by
  unfold meterTick
  cases e.session
  · rfl
  · dsimp only; split <;> rfl

lemma meterTick_session_isSome {cfg : Config} {sp : SessionParams} {e : Evse}
    (h : e.session.isSome) : (meterTick cfg sp e).session.isSome := by
  unfold meterTick
  cases hs : e.session
  · rw [hs] at h; exact absurd h (by simp)
  · dsimp only; split <;> simp [hs]

/-- The tick body, written with the branch conditions discharged. -/
lemma meterTick_session_eq {cfg : Config} {sp : SessionParams} {e : Evse} {ses : Session}
    (hs : e.session = some ses) (hf : e.status ≠ Status.Faulted) :
    (meterTick cfg sp e).session = some
      { ses with
        energy := ses.energy +
          sp.totalEnergy / sp.totalSeconds * curveMultOf cfg ses.soc * tempDerating e.temperature
        soc := min
          (ses.soc + sp.socRange / sp.totalSeconds * curveMultOf cfg ses.soc * tempDerating e.temperature)
          cfg.socEnd } := by
  unfold meterTick curveMultOf
  rw [hs]
  dsimp only
  rw [if_neg hf]

end TickLemmas

/-- C2: on `[0,100]` the power-curve multiplier follows the piecewise
curve of the source — a linear ramp from 0.75 towards 1.0 on `[0,20)`,
exactly 1.0 on `[20,80]`, linear decays `1.0→0.45` on `[80,90)`,
`0.45→0.20` on `[90,95)` and `0.20→0.05` on `[95,100]` — it is continuous
at the breakpoints 20, 80, 90 and 95, and its value lies in `[0,1]`. -/
theorem C2_chargeCurve_spec :
    (chargeCurve 0 = 0.75) ∧
    (∀ soc : ℚ, 0 ≤ soc → soc < 20 → chargeCurve soc = 0.75 + soc / 20 * 0.25) ∧
    (∀ soc : ℚ, 20 ≤ soc → soc ≤ 80 → chargeCurve soc = 1) ∧
    (∀ soc : ℚ, 80 ≤ soc → soc < 90 → chargeCurve soc = 1 - (soc - 80) / 10 * 0.55) ∧
    (chargeCurve 90 = 0.45) ∧
    (∀ soc : ℚ, 90 ≤ soc → soc < 95 → chargeCurve soc = 0.45 - (soc - 90) / 5 * 0.25) ∧
    (chargeCurve 95 = 0.2) ∧
    (∀ soc : ℚ, 95 ≤ soc → soc ≤ 100 → chargeCurve soc = 0.2 - (soc - 95) / 5 * 0.15) ∧
    (chargeCurve 100 = 0.05) ∧
    (∀ ε : ℚ, 0 < ε → ∃ δ : ℚ, 0 < δ ∧
      ∀ x : ℚ, |x - 20| < δ → |chargeCurve x - chargeCurve 20| < ε) ∧
    (∀ ε : ℚ, 0 < ε → ∃ δ : ℚ, 0 < δ ∧
      ∀ x : ℚ, |x - 80| < δ → |chargeCurve x - chargeCurve 80| < ε) ∧
    (∀ ε : ℚ, 0 < ε → ∃ δ : ℚ, 0 < δ ∧
      ∀ x : ℚ, |x - 90| < δ → |chargeCurve x - chargeCurve 90| < ε) ∧
    (∀ ε : ℚ, 0 < ε → ∃ δ : ℚ, 0 < δ ∧
      ∀ x : ℚ, |x - 95| < δ → |chargeCurve x - chargeCurve 95| < ε) ∧
    (∀ soc : ℚ, 0 ≤ soc → soc ≤ 100 → 0 ≤ chargeCurve soc ∧ chargeCurve soc ≤ 1) := by
  have h20 : chargeCurve 20 = 1 := by norm_num [chargeCurve]
  have h80 : chargeCurve 80 = 1 := by norm_num [chargeCurve]
  have h90 : chargeCurve 90 = 0.45 := by norm_num [chargeCurve]
  have h95 : chargeCurve 95 = 0.2 := by norm_num [chargeCurve]
  refine ⟨by norm_num [chargeCurve], fun soc _ h => chargeCurve_of_lt20 h,
    ?_, fun soc h1 h2 => chargeCurve_of_ge80_lt90 h1 h2, h90,
    fun soc h1 h2 => chargeCurve_of_ge90_lt95 h1 h2, h95,
    fun soc h1 _ => chargeCurve_of_ge95 h1, by norm_num [chargeCurve],
    ?_, ?_, ?_, ?_, ?_⟩
  · intro soc h1 h2
    rcases eq_or_lt_of_le h2 with rfl | h2
    · exact h80
    · exact chargeCurve_of_ge20_lt80 h1 h2
  · -- continuity at 20
    intro ε hε
    refine ⟨min 60 (80 * ε), by positivity, ?_⟩
    intro x hx
    have hb1 : |x - 20| < 60 := lt_of_lt_of_le hx (min_le_left _ _)
    have hb2 : |x - 20| < 80 * ε := lt_of_lt_of_le hx (min_le_right _ _)
    rw [abs_lt] at hb1 hb2
    rw [h20]
    rcases lt_or_le x 20 with hx2 | hx2
    · rw [chargeCurve_of_lt20 hx2, abs_lt]
      constructor <;> linarith [hb2.1, hb2.2]
    · rw [chargeCurve_of_ge20_lt80 hx2 (by linarith [hb1.2])]
      simpa using hε
  · -- continuity at 80
    intro ε hε
    refine ⟨min 10 (10 * ε), by positivity, ?_⟩
    intro x hx
    have hb1 : |x - 80| < 10 := lt_of_lt_of_le hx (min_le_left _ _)
    have hb2 : |x - 80| < 10 * ε := lt_of_lt_of_le hx (min_le_right _ _)
    rw [abs_lt] at hb1 hb2
    rw [h80]
    rcases lt_or_le x 80 with hx2 | hx2
    · rw [chargeCurve_of_ge20_lt80 (by linarith [hb1.1]) hx2]
      simpa using hε
    · rw [chargeCurve_of_ge80_lt90 hx2 (by linarith [hb1.2]), abs_lt]
      constructor <;> linarith [hb2.2]
  · -- continuity at 90
    intro ε hε
    refine ⟨min 5 (10 * ε), by positivity, ?_⟩
    intro x hx
    have hb1 : |x - 90| < 5 := lt_of_lt_of_le hx (min_le_left _ _)
    have hb2 : |x - 90| < 10 * ε := lt_of_lt_of_le hx (min_le_right _ _)
    rw [abs_lt] at hb1 hb2
    rw [h90]
    rcases lt_or_le x 90 with hx2 | hx2
    · rw [chargeCurve_of_ge80_lt90 (by linarith [hb1.1]) hx2, abs_lt]
      constructor <;> linarith [hb2.1]
    · rw [chargeCurve_of_ge90_lt95 hx2 (by linarith [hb1.2]), abs_lt]
      constructor <;> linarith [hb2.2]
  · -- continuity at 95
    intro ε hε
    refine ⟨min 5 (10 * ε), by positivity, ?_⟩
    intro x hx
    have hb1 : |x - 95| < 5 := lt_of_lt_of_le hx (min_le_left _ _)
    have hb2 : |x - 95| < 10 * ε := lt_of_lt_of_le hx (min_le_right _ _)
    rw [abs_lt] at hb1 hb2
    rw [h95]
    rcases lt_or_le x 95 with hx2 | hx2
    · rw [chargeCurve_of_ge90_lt95 (by linarith [hb1.1]) hx2, abs_lt]
      constructor <;> linarith [hb2.1]
    · rw [chargeCurve_of_ge95 hx2, abs_lt]
      constructor <;> linarith [hb2.2]
  · intro soc h0 h1
    have h := chargeCurve_bounds h0 h1
    exact ⟨by linarith [h.1], h.2⟩

/-- Witness for C2: the plateau and range facts evaluated at concrete
SOC values. -/
theorem C2_chargeCurve_spec_witness :
    chargeCurve 50 = 1 ∧ 0 ≤ chargeCurve 99 ∧ chargeCurve 99 ≤ 1 := by
  obtain ⟨-, -, hplat, -, -, -, -, -, -, -, -, -, -, hrange⟩ := C2_chargeCurve_spec
  exact ⟨hplat 50 (by norm_num) (by norm_num),
    (hrange 99 (by norm_num) (by norm_num)).1,
    (hrange 99 (by norm_num) (by norm_num)).2⟩

/-- C4 counterexample: `tempDerating` applies no clamp — at 86 °C it
returns 0.16, below the claimed 0.2 floor, so the result does not lie in
`[0.2, 1.0]` for every input. -/
theorem C4_counterexample :
    tempDerating 86 = 0.16 ∧ ¬(0.2 ≤ tempDerating 86) := by
  norm_num [tempDerating]

/-- C4 (amended): the derating function follows the stated pieces
(1.0 below 60 °C, linear decay 1.0→0.6 on [60,75), linear decay beyond
75 °C), but carries no clamp of its own; its result lies in `[0.2, 1.0]`
for inputs up to 85 °C, the cap that `updateTemp` enforces on every
temperature the simulation produces. -/
theorem C4_amended_tempDerating :
    ∀ t : ℚ,
      (t < 60 → tempDerating t = 1) ∧
      (60 ≤ t → t < 75 → tempDerating t = 1 - (t - 60) / 15 * 0.4) ∧
      (75 ≤ t → tempDerating t = 0.6 - (t - 75) / 10 * 0.4) ∧
      (t ≤ 85 → 0.2 ≤ tempDerating t ∧ tempDerating t ≤ 1) ∧
      (∀ cur pw mx amb : ℚ, amb ≤ 85 → updateTemp cur pw mx amb ≤ 85) := by
  intro t
  refine ⟨fun h => tempDerating_of_lt60 h,
    fun h1 h2 => tempDerating_of_ge60_lt75 h1 h2,
    fun h1 => tempDerating_of_ge75 h1,
    fun h => tempDerating_bounds h,
    fun cur pw mx amb h => ?_⟩
  unfold updateTemp
  exact max_le h (min_le_left _ _)

/-- Witness for C4 (amended) at concrete temperatures. -/
theorem C4_amended_tempDerating_witness :
    tempDerating 50 = 1 ∧ 0.2 ≤ tempDerating 85 := by
  refine ⟨(C4_amended_tempDerating 50).1 (by norm_num), ?_⟩
  exact ((C4_amended_tempDerating 85).2.2.2.1 (by norm_num)).1

/-- C3 counterexample: the metering tick clamps only SOC; energy is
advanced without a clamp. One tick on `lateEvse` (SOC 99, energy
47.999 kWh) under the default configuration raises energy to 48.0118 kWh,
strictly above the configured target
`batteryCapacity * (socEnd - socStart) / 100 = 48`. -/
theorem C3_counterexample :
    ((meterTick cexCfg (sessionParams cexCfg) lateEvse).session.map Session.energy)
        = some (48.0118 : ℚ) ∧
    cexCfg.batteryCapacity * (cexCfg.socEnd - cexCfg.socStart) / 100 < (48.0118 : ℚ) := by
  constructor
  · rw [meterTick_session_eq (rfl) (by decide)]
    norm_num [Option.map_some', lateSession, sessionParams, cexCfg, curveMultOf,
      chargeCurve, tempDerating, lateEvse]
  · norm_num [cexCfg]

/-- C3 (amended): each metering tick advances SOC by the base per-second
increment times the curve and temperature multipliers, clamped to
`socEnd`, and advances energy by its base increment times the same
multipliers with no clamp; SOC is non-decreasing and never exceeds
`socEnd`, and energy is non-decreasing (but may overshoot the configured
energy target on the final tick, as no clamp is applied to it). -/
theorem C3_amended_tick :
    ∀ (cfg : Config) (sp : SessionParams) (e : Evse) (ses : Session),
      e.session = some ses → e.status ≠ Status.Faulted →
      0 ≤ ses.soc → ses.soc ≤ 100 → ses.soc ≤ cfg.socEnd →
      e.temperature ≤ 85 →
      0 ≤ sp.socRange → 0 ≤ sp.totalEnergy → 0 < sp.totalSeconds →
      ∃ ses', (meterTick cfg sp e).session = some ses' ∧
        ses'.soc = min
          (ses.soc + sp.socRange / sp.totalSeconds * curveMultOf cfg ses.soc
            * tempDerating e.temperature) cfg.socEnd ∧
        ses'.energy = ses.energy + sp.totalEnergy / sp.totalSeconds * curveMultOf cfg ses.soc
          * tempDerating e.temperature ∧
        ses.soc ≤ ses'.soc ∧ ses'.soc ≤ cfg.socEnd ∧ ses.energy ≤ ses'.energy := by
  intro cfg sp e ses hs hf h0 h100 hend htemp hrange henergy hts
  have hcurve : 0 < curveMultOf cfg ses.soc := curveMultOf_pos h0 h100
  have htd : 0 < tempDerating e.temperature := by
    have := (tempDerating_bounds htemp).1
    linarith
  have hsocInc : 0 ≤ sp.socRange / sp.totalSeconds * curveMultOf cfg ses.soc
      * tempDerating e.temperature := by positivity
  have henInc : 0 ≤ sp.totalEnergy / sp.totalSeconds * curveMultOf cfg ses.soc
      * tempDerating e.temperature := by positivity
  refine ⟨_, meterTick_session_eq hs hf, rfl, rfl, ?_, ?_, ?_⟩
  · exact le_min (by linarith) hend
  · exact min_le_right _ _
  · linarith

/-- Witness for C3 (amended): the tick on `lateEvse` yields a session. -/
theorem C3_amended_tick_witness :
    ((meterTick cexCfg (sessionParams cexCfg) lateEvse).session).isSome = true := by
  obtain ⟨s, hs, -⟩ := C3_amended_tick cexCfg (sessionParams cexCfg) lateEvse lateSession
    rfl (by decide) (by norm_num [lateSession]) (by norm_num [lateSession])
    (by norm_num [lateSession, cexCfg]) (by norm_num [lateEvse])
    (by norm_num [sessionParams, cexCfg]) (by norm_num [sessionParams, cexCfg])
    (by norm_num [sessionParams, cexCfg])
  rw [hs]
  rfl

/-- C1 counterexample: the stated invariant fails on a reachable state.
Starting a session and then stopping it leaves the EVSE `Finishing` with
its session retained, so `session != null` holds while the status is
neither `Charging` nor `Preparing`. -/
theorem C1_counterexample :
    Reachable cexCfg 1 ("CCS2") cexFinishing ∧ ¬ claimInv cexFinishing := by
  constructor
  · exact Relation.ReflTransGen.tail
      (Relation.ReflTransGen.single
        (Step.start (createEvse 1 ("CCS2")) ("TX1") ("USER001") 0 rfl))
      (Step.stopNow cexPreparing rfl)
  · intro h
    have h1 := h.1.mpr (by simp [cexFinishing, cexPreparing])
    rcases h1 with h1 | h1 <;> simp [cexFinishing, cexPreparing] at h1

/-- Every single engine transition preserves the forward implications of
the invariant. -/
lemma invAmended_step {cfg : Config} {a b : Evse}
    (hstep : Step cfg a b) (ih : invAmended a) : invAmended b := by
  cases hstep with
  | start txId idTag t h =>
    exact ⟨fun _ => by simp, fun hf => by simp at hf⟩
  | rampUp h =>
    exact ⟨fun _ => Option.ne_none_iff_isSome.mpr h, fun hf => by simp at hf⟩
  | tick sp =>
    have hst := meterTick_status cfg sp a
    have hfl := meterTick_fault cfg sp a
    constructor
    · intro hc
      rw [hst] at hc
      have h1 : a.session ≠ none := ih.1 hc
      exact Option.ne_none_iff_isSome.mpr
        (meterTick_session_isSome (Option.ne_none_iff_isSome.mp h1))
    · intro hf
      rw [hst] at hf
      rw [hfl]
      exact ih.2 hf
  | targetFinish s =>
    exact ⟨fun hc => by rcases hc with hc | hc <;> simp at hc,
      fun hf => by simp at hf⟩
  | stopNow h =>
    exact ⟨fun hc => by rcases hc with hc | hc <;> simp at hc,
      fun hf => by simp at hf⟩
  | settle =>
    exact ⟨fun hc => by rcases hc with hc | hc <;> simp at hc,
      fun hf => by simp at hf⟩
  | inject f =>
    exact ⟨fun hc => by rcases hc with hc | hc <;> simp [injectFaultEvse] at hc,
      fun _ => by simp [injectFaultEvse]⟩
  | clear =>
    exact ⟨fun hc => by rcases hc with hc | hc <;> simp [clearFaultEvse] at hc,
      fun hf => by simp [clearFaultEvse] at hf⟩
  | resetAll =>
    exact ⟨fun hc => by rcases hc with hc | hc <;> simp at hc,
      fun hf => by simp at hf⟩
  | changeAvail st h =>
    rcases h with h | h <;> subst h <;>
      exact ⟨fun hc => by rcases hc with hc | hc <;> simp at hc,
        fun hf => by simp at hf⟩
  | tempAmbient => exact ih
  | disconnectStep =>
    exact ⟨fun hc => by rcases hc with hc | hc <;> simp at hc,
      fun hf => by simp at hf⟩
  | connectStep =>
    exact ⟨fun hc => by rcases hc with hc | hc <;> simp at hc,
      fun hf => by simp at hf⟩

/-- C1 (amended): on every reachable EVSE state the forward implications
of the stated invariant hold — `Charging` or `Preparing` implies an
active session, and `Faulted` implies a recorded fault. The reverse
implications and the mutual exclusion of session and fault do not hold in
general (`Finishing`/`Unavailable` states can retain a session, and
`clearFault`/`ChangeAvailability` do not touch the respective other
field). -/
theorem C1_amended_inv :
    ∀ (cfg : Config) (id : Nat) (ct : String) (e : Evse),
      Reachable cfg id ct e → invAmended e := by
  intro cfg id ct e h
  induction h with
  | refl =>
    exact ⟨by rintro (h | h) <;> simp [createEvse] at h,
      by intro h; simp [createEvse] at h⟩
  | tail hR hstep ih => exact invAmended_step hstep ih

/-- Witness for C1 (amended) at the initial state. -/
theorem C1_amended_inv_witness : invAmended (createEvse 1 ("CCS2")) :=
  C1_amended_inv cexCfg 1 ("CCS2") (createEvse 1 ("CCS2")) Relation.ReflTransGen.refl

/-- C5: a CALL whose action is none of the five implemented ones yields
exactly one CALLERROR reply carrying the inbound correlation id and code
`NotImplemented`, and the EVSE list is returned unchanged (no status,
session, fault or power mutation); the frame never silently succeeds. -/
theorem C5_unknownAction :
    ∀ (cfg : Config) (evses : List Evse) (txId : String) (t : Nat)
      (msgId action : String) (p : Payload),
      action ≠ "RequestStartTransaction" → action ≠ "RequestStopTransaction" →
      action ≠ "Reset" → action ≠ "ChangeAvailability" → action ≠ "TriggerMessage" →
      handleCall true cfg evses txId t msgId action p
        = (evses, [OutMsg.callError msgId ("NotImplemented") (action ++ " not supported")]) := by
  intro cfg evses txId t msgId action p h1 h2 h3 h4 h5
  unfold handleCall
  rw [if_neg h1, if_neg h2, if_neg h3, if_neg h4, if_neg h5, if_pos rfl]

/-- Witness for C5 at the unknown action `GetLog`. -/
theorem C5_unknownAction_witness :
    handleCall true cexCfg [createEvse 1 ("CCS2")] ("T") 0 ("M1") ("GetLog") noPayload
      = ([createEvse 1 ("CCS2")],
         [OutMsg.callError ("M1") ("NotImplemented") ("GetLog not supported")]) := by
  have h := C5_unknownAction cexCfg [createEvse 1 ("CCS2")] ("T") 0 ("M1") ("GetLog")
    noPayload (by decide) (by decide) (by decide) (by decide) (by decide)
  simpa using h

/-- C6: starting a session on an EVSE whose status is not exactly
`Available` is rejected as a no-op — `doStartSession` returns the EVSE
list unchanged and sends nothing, and a remote
`RequestStartTransaction` naming that EVSE additionally receives a single
`Rejected` reply with no state change. -/
theorem C6_startRejected :
    ∀ (cfg : Config) (evses : List Evse) (evseId : Nat) (idTag txId : String)
      (t : Nat) (msgId : String) (p : Payload) (e : Evse),
      evses.find? (fun x => x.id == evseId) = some e →
      e.status ≠ Status.Available →
      doStartSession cfg evses evseId idTag txId t = (evses, []) ∧
      (p.evseId.getD 1 = evseId →
        handleCall true cfg evses txId t msgId ("RequestStartTransaction") p
          = (evses, [OutMsg.callResult msgId ("Rejected")])) := by
  intro cfg evses evseId idTag txId t msgId p e hfind hstatus
  constructor
  · unfold doStartSession
    rw [hfind]
    dsimp only
    rw [if_pos hstatus]
  · intro hp
    have hfind2 : evses.find? (fun x => x.id == p.evseId.getD 1) = some e := by
      rw [hp]; exact hfind
    unfold handleCall
    rw [if_pos rfl]
    dsimp only
    rw [hfind2]
    dsimp only
    rw [if_pos hstatus]
    rfl

/-- Witness for C6 on a `Finishing` EVSE. -/
theorem C6_startRejected_witness :
    doStartSession cexCfg [cexFinishing] 1 ("USER001") ("TX9") 0 = ([cexFinishing], []) ∧
    handleCall true cexCfg [cexFinishing] ("TX9") 0 ("M2") ("RequestStartTransaction") noPayload
      = ([cexFinishing], [OutMsg.callResult ("M2") ("Rejected")]) := by
  have h := C6_startRejected cexCfg [cexFinishing] 1 ("USER001") ("TX9") 0 ("M2")
    noPayload cexFinishing rfl (by decide)
  exact ⟨h.1, h.2 rfl⟩

/-- C7: a `RequestStopTransaction` whose transaction id matches no active
session is answered with a single `Rejected` reply and the EVSE list is
returned unchanged — no session is stopped and no status transition
occurs. -/
theorem C7_stopUnknownTx :
    ∀ (cfg : Config) (evses : List Evse) (txId : String) (t : Nat)
      (msgId : String) (p : Payload) (tx : String),
      p.transactionId = some tx →
      (∀ e ∈ evses, ∀ s, e.session = some s → s.transactionId ≠ tx) →
      handleCall true cfg evses txId t msgId ("RequestStopTransaction") p
        = (evses, [OutMsg.callResult msgId ("Rejected")]) := by
  intro cfg evses txId t msgId p tx hp hm
  unfold handleCall
  rw [if_neg (by decide), if_pos rfl]
  have hnone : evses.find?
      (fun e => e.session.map Session.transactionId == p.transactionId) = none := by
    apply List.find?_eq_none.mpr
    intro x hx
    rw [hp]
    cases hsx : x.session with
    | none => simp
    | some s =>
      simp only [Option.map_some', beq_iff_eq, Option.some.injEq]
      exact hm x hx s hsx
  rw [hnone]
  rfl

/-- Witness for C7: stopping transaction `TX2` while only `TX1` runs. -/
theorem C7_stopUnknownTx_witness :
    handleCall true cexCfg [cexPreparing] ("T") 0 ("M3") ("RequestStopTransaction") stopPayload
      = ([cexPreparing], [OutMsg.callResult ("M3") ("Rejected")]) := by
  refine C7_stopUnknownTx cexCfg [cexPreparing] ("T") 0 ("M3") stopPayload ("TX2") rfl ?_
  intro e he s hs
  have he2 : e = cexPreparing := by simpa using he
  subst he2
  have h4 : (some (mkSession cexCfg ("TX1") ("USER001") 0) : Option Session) = some s := hs
  have h3 : s = mkSession cexCfg ("TX1") ("USER001") 0 := (Option.some.inj h4).symm
  subst h3
  decide

/-- C9: `clearFault` checks no precondition — on any EVSE it sets the
status to `Available`, the fault to `null` and the power to 0 while
leaving the session untouched, so clearing a `Charging` EVSE yields
`Available` with a non-null session. -/
theorem C9_clearFault_unconditional :
    ∀ e : Evse,
      clearFaultEvse e = { e with status := Status.Available, fault := none, power := 0 } ∧
      (clearFaultEvse e).session = e.session ∧
      (∀ (evses : List Evse) (evseId : Nat),
        (clearFault evses evseId).1 = updateEvse evses evseId clearFaultEvse) ∧
      (e.status = Status.Charging → e.session.isSome →
        (clearFaultEvse e).status = Status.Available ∧ (clearFaultEvse e).session.isSome) := by
  intro e
  exact ⟨rfl, rfl, fun _ _ => rfl, fun _ hs => ⟨rfl, hs⟩⟩

/-- Witness for C9: clearing the fault of a charging EVSE. -/
theorem C9_clearFault_unconditional_witness :
    (clearFaultEvse cexCharging).status = Status.Available ∧
    (clearFaultEvse cexCharging).session.isSome := by
  exact (C9_clearFault_unconditional cexCharging).2.2.2 rfl rfl

/-- C10: `ChangeAvailability(Inoperative)` on an EVSE with an active
session sets the status to `Unavailable` but neither clears the session
nor is the metering interval cancelled anywhere in that branch; since the
per-tick guard only skips EVSEs with no session or `Faulted` status,
subsequent ticks keep strictly increasing SOC and energy while the status
is `Unavailable`. -/
theorem C10_changeAvailability_keepsTicking :
    ∀ (cfg : Config) (sp : SessionParams) (evses : List Evse) (txId : String)
      (t : Nat) (msgId : String) (p : Payload) (eid : Nat) (e : Evse) (ses : Session),
      p.evseId = some eid →
      p.operationalStatus = some ("Inoperative") →
      e.session = some ses →
      0 ≤ ses.soc → ses.soc ≤ 100 → ses.soc < cfg.socEnd →
      e.temperature ≤ 85 →
      0 < sp.socRange → 0 < sp.totalEnergy → 0 < sp.totalSeconds →
      handleCall true cfg evses txId t msgId ("ChangeAvailability") p
        = (updateEvse evses eid (fun x => { x with status := Status.Unavailable }),
           [OutMsg.callResult msgId ("Accepted"), OutMsg.txCall ("StatusNotification")]) ∧
      ({ e with status := Status.Unavailable } : Evse).session = some ses ∧
      tickSkip { e with status := Status.Unavailable } = false ∧
      ∃ ses', (meterTick cfg sp { e with status := Status.Unavailable }).session = some ses' ∧
        ses.soc < ses'.soc ∧ ses.energy < ses'.energy := by
  intro cfg sp evses txId t msgId p eid e ses hp1 hp2 hs h0 h100 hend htemp hrange henergy hts
  have hcurve : 0 < curveMultOf cfg ses.soc := curveMultOf_pos h0 h100
  have htd : 0 < tempDerating e.temperature := by
    have := (tempDerating_bounds htemp).1
    linarith
  have hsocInc : 0 < sp.socRange / sp.totalSeconds * curveMultOf cfg ses.soc
      * tempDerating e.temperature := by positivity
  have henInc : 0 < sp.totalEnergy / sp.totalSeconds * curveMultOf cfg ses.soc
      * tempDerating e.temperature := by positivity
  refine ⟨?_, hs, ?_, ?_⟩
  · unfold handleCall
    rw [if_neg (by decide), if_neg (by decide), if_neg (by decide), if_pos rfl]
    dsimp only
    rw [hp1, hp2]
    rfl
  · simp [tickSkip, hs]
  · refine ⟨_, meterTick_session_eq hs (by simp), ?_, ?_⟩
    · exact lt_min (by linarith) hend
    · dsimp only
      linarith

/-- Witness for C10: the guard does not skip an `Unavailable` EVSE whose
session is active. -/
theorem C10_changeAvailability_keepsTicking_witness :
    tickSkip { cexCharging with status := Status.Unavailable } = false := by
  have h := C10_changeAvailability_keepsTicking cexCfg (sessionParams cexCfg) [cexCharging]
    ("T") 0 ("M4") inopPayload 1 cexCharging (mkSession cexCfg ("TX1") ("USER001") 0)
    rfl rfl rfl (by norm_num [mkSession, cexCfg]) (by norm_num [mkSession, cexCfg])
    (by norm_num [mkSession, cexCfg]) (by norm_num [cexCharging, cexPreparing, createEvse])
    (by norm_num [sessionParams, cexCfg]) (by norm_num [sessionParams, cexCfg])
    (by norm_num [sessionParams, cexCfg])
  exact h.2.2.1

/-- C8 (code bug): the claim matches the intent visible in the
`try/catch` around `JSON.parse` — malformed inbound frames should be
logged and discarded — but the array destructuring
`const [type, msgId, ...rest] = parsed` runs outside that `try`, so a
frame that parses to a JSON object (e.g. the text `{}`), number, boolean
or `null` is not iterable and throws an uncaught `TypeError` instead of
being discarded. An unparsable frame is handled as claimed. -/
theorem C8_malformedFrame_crash :
    handleFrame (some JValue.obj) = FrameResult.crashed ∧
    handleFrame (some (JValue.num 7)) = FrameResult.crashed ∧
    handleFrame none = FrameResult.loggedInvalid ∧
    handleFrame (some (JValue.arr [JAtom.num 9, JAtom.str ("id")])) = FrameResult.ignored := by
  exact ⟨rfl, rfl, rfl, rfl⟩

end EvSim
